import Mathlib

/-!
Shallow embedding of the budgetGenerator app's quote/payment logic.

Sources embedded:
* `calculateQuoteTotals`, `validateQuoteData`, `isQuoteExpired`,
  `getTimeUntilExpiration` from the quote service module;
* `isPaymentExpired`, `getPaymentTimeLeft` and the axios response
  interceptor's retry loop from the services module, with `ERROR_CONFIG`
  from `constants/config.ts`;
* the polling state machine of `PaymentQRScreen`
  (`checkPaymentStatus`, `handleManualRefresh`, `handleCancelPayment`,
  and the 10-second `setInterval` effect).

JavaScript numbers are modelled as `Rat`, timestamps (`Date.getTime()`)
as `Int` milliseconds, and `Record<string, string>` error maps as
association lists in insertion order.
-/

namespace BudgetGen

/-- Product as consumed by `calculateQuoteTotals`: only `price` is read. -/
structure Product where
  price : Rat
  deriving DecidableEq

/-- An entry of the `items` argument of `calculateQuoteTotals`. -/
structure QuoteItem where
  product : Product
  quantity : Rat
  deriving DecidableEq

/-- Return record of `calculateQuoteTotals`. -/
structure QuoteTotals where
  subtotal : Rat
  discountAmount : Rat
  taxAmount : Rat
  total : Rat
  deriving DecidableEq

/-- `calculateQuoteTotals(items, discount, tax)`: subtotal is a `reduce`
over `price * quantity`; discount and tax are percentages applied in
sequence; no rounding and no input validation occur. -/
def calculateQuoteTotals (items : List QuoteItem) (discount : Rat) (tax : Rat) :
    QuoteTotals :=
  let subtotal := items.foldl (fun sum item => sum + item.product.price * item.quantity) 0
  let discountAmount := subtotal * discount / 100
  let afterDiscount := subtotal - discountAmount
  let taxAmount := afterDiscount * tax / 100
  let total := afterDiscount + taxAmount
  ⟨subtotal, discountAmount, taxAmount, total⟩

/-- Customer part of `CreateQuoteRequest`; optional fields are `Option`,
with the empty string still possible (JS treats `""` as falsy). -/
structure CustomerData where
  name : String
  email : Option String
  phone : Option String
  deriving DecidableEq

/-- An item of `CreateQuoteRequest`: note it carries no price field. -/
structure QuoteItemRequest where
  productId : String
  quantity : Rat
  deriving DecidableEq

/-- `CreateQuoteRequest` as validated by `validateQuoteData`. -/
structure CreateQuoteRequest where
  customer : CustomerData
  items : List QuoteItemRequest
  discount : Option Rat
  tax : Option Rat
  notes : Option String
  deriving DecidableEq

/-- Return record of `validateQuoteData`: `isValid` plus the `errors`
record, modelled as a list of `(field, message)` pairs in insertion
order. -/
structure ValidationResult where
  isValid : Bool
  errors : List (String × String)
  deriving DecidableEq

/-- JavaScript `String.prototype.trim`, written over the character list so
that it evaluates by `decide`. -/
def jsTrim (s : String) : String :=
  String.mk (((s.toList.dropWhile Char.isWhitespace).reverse.dropWhile
    Char.isWhitespace).reverse)

/-- Split a character list at every occurrence of `c`
(JavaScript `String.prototype.split` on a single-character separator). -/
def splitOnChar (c : Char) : List Char → List (List Char)
  | [] => [[]]
  | x :: xs =>
    let r := splitOnChar c xs
    if x = c then [] :: r
    else
      match r with
      | [] => [[x]]
      | h :: t => (x :: h) :: t

/-- `validateEmail`: the regex `^[^\s@]+@[^\s@]+\.[^\s@]+$` holds exactly
when the string is `A+ "@" A+ "." A+` with `A` the non-whitespace
non-`@` characters; since `A` excludes `@`, this is: exactly one `@`,
a nonempty whitespace-free part before it, and a whitespace-free part
after it containing a `.` that is neither its first nor its last
character. -/
def validateEmail (email : String) : Bool :=
  match splitOnChar '@' email.toList with
  | [bef, domain] =>
    (!bef.isEmpty) && bef.all (fun ch => !ch.isWhitespace)
      && domain.all (fun ch => !ch.isWhitespace)
      && ((domain.drop 1).dropLast.contains '.')
  | _ => false

/-- `validatePhone`: strip spaces, dashes and parentheses, then match
`^[\+]?[1-9][\d]{0,15}$`. -/
def validatePhone (phone : String) : Bool :=
  let cleaned := phone.toList.filter
    (fun c => !(c.isWhitespace || c = '-' || c = '(' || c = ')'))
  let rest :=
    match cleaned with
    | '+' :: r => r
    | r => r
  match rest with
  | [] => false
  | d :: ds =>
    decide ('1' ≤ d ∧ d ≤ '9') && ds.all (fun c => c.isDigit)
      && decide (ds.length ≤ 15)

/-- Per-item checks of `validateQuoteData`'s `forEach`. The two quantity
conditions are mutually exclusive, so appending both possible entries
agrees with the source's record assignment to the same key. -/
def itemErrors (idx : Nat) (item : QuoteItemRequest) : List (String × String) :=
  (if item.productId = "" then
      [("item" ++ toString idx ++ "Product", "Producto requerido")] else [])
    ++ (if item.quantity = 0 ∨ item.quantity ≤ 0 then
      [("item" ++ toString idx ++ "Quantity", "La cantidad debe ser mayor a 0")] else [])
    ++ (if item.quantity > 1000 then
      [("item" ++ toString idx ++ "Quantity", "La cantidad máxima es 1000")] else [])

/-- The indexed `forEach` over the request items. -/
def collectItemErrors : Nat → List QuoteItemRequest → List (String × String)
  | _, [] => []
  | idx, it :: rest => itemErrors idx it ++ collectItemErrors (idx + 1) rest

/-- `validateQuoteData`: accumulates an error record and returns
`isValid` iff it stayed empty. Guards of the form `data.x && ...` skip
the check when the value is absent, `0`, or the empty string, mirroring
JavaScript truthiness. It never throws, and it performs no check on any
price (the request items carry none). -/
def validateQuoteData (data : CreateQuoteRequest) : ValidationResult :=
  let customerErrors :=
    (if data.customer.name = "" ∨ (jsTrim data.customer.name).length < 2 then
        [("customerName", "El nombre del cliente es obligatorio")] else [])
    ++ (match data.customer.email with
        | some em =>
          if em ≠ "" ∧ ¬ validateEmail em then
            [("customerEmail", "El email no es válido")] else []
        | none => [])
    ++ (match data.customer.phone with
        | some ph =>
          if ph ≠ "" ∧ ¬ validatePhone ph then
            [("customerPhone", "El teléfono no es válido")] else []
        | none => [])
  let itemsEmptyErrors :=
    if data.items = [] then [("items", "Debe agregar al menos un producto")] else []
  let perItemErrors := collectItemErrors 0 data.items
  let discountErrors :=
    match data.discount with
    | some d =>
      if d ≠ 0 ∧ (d < 0 ∨ d > 100) then
        [("discount", "El descuento debe estar entre 0 y 100")] else []
    | none => []
  let taxErrors :=
    match data.tax with
    | some t =>
      if t ≠ 0 ∧ (t < 0 ∨ t > 100) then
        [("tax", "El impuesto debe estar entre 0 y 100")] else []
    | none => []
  let notesErrors :=
    match data.notes with
    | some n =>
      if n.length > 500 then
        [("notes", "Las notas no pueden superar los 500 caracteres")] else []
    | none => []
  let errors := customerErrors ++ itemsEmptyErrors ++ perItemErrors
    ++ discountErrors ++ taxErrors ++ notesErrors
  ⟨errors.isEmpty, errors⟩

/-- Urgency level returned by the expiration helpers. -/
inductive Urgency
  | low
  | medium
  | high
  deriving DecidableEq

/-- Return record of `getTimeUntilExpiration` and `getPaymentTimeLeft`. -/
structure TimeLeftInfo where
  expired : Bool
  timeLeft : String
  urgency : Urgency
  deriving DecidableEq

/-- `isQuoteExpired`: `new Date() > new Date(quote.expiresAt)` — strict
comparison of millisecond timestamps. -/
def isQuoteExpired (nowMs expiresAtMs : Int) : Bool :=
  nowMs > expiresAtMs

/-- `getTimeUntilExpiration` on millisecond timestamps.  `diffMs <= 0`
yields the expired record with the string `"Expirado"` (the code's
representation of no time remaining) and high urgency; otherwise
`Math.floor` divisions produce a days/hours/minutes display.  All
divisions act on nonnegative values, where `Int` division agrees with
`Math.floor`. -/
def getTimeUntilExpiration (nowMs expiresAtMs : Int) : TimeLeftInfo :=
  let diffMs := expiresAtMs - nowMs
  if diffMs ≤ 0 then
    ⟨true, "Expirado", Urgency.high⟩
  else
    let days := diffMs / (1000 * 60 * 60 * 24)
    let hours := (diffMs % (1000 * 60 * 60 * 24)) / (1000 * 60 * 60)
    if days > 0 then
      ⟨false, toString days ++ " día" ++ (if days > 1 then "s" else ""),
        if days ≤ 1 then Urgency.high
        else if days ≤ 3 then Urgency.medium else Urgency.low⟩
    else if hours > 0 then
      ⟨false, toString hours ++ " hora" ++ (if hours > 1 then "s" else ""),
        Urgency.high⟩
    else
      let minutes := (diffMs % (1000 * 60 * 60)) / (1000 * 60)
      ⟨false, toString minutes ++ " minuto" ++ (if minutes > 1 then "s" else ""),
        Urgency.high⟩

/-- `isPaymentExpired`: `false` when there is no `expiresAt`, else the
same strict comparison as `isQuoteExpired`. -/
def isPaymentExpired (expiresAtMs : Option Int) (nowMs : Int) : Bool :=
  match expiresAtMs with
  | none => false
  | some e => nowMs > e

/-- `getPaymentTimeLeft`: no `expiresAt` means no limit; `diffMs <= 0`
yields the expired record with `"Expirado"` and high urgency; otherwise
an hours/minutes display. -/
def getPaymentTimeLeft (expiresAtMs : Option Int) (nowMs : Int) : TimeLeftInfo :=
  match expiresAtMs with
  | none => ⟨false, "Sin límite", Urgency.low⟩
  | some e =>
    let diffMs := e - nowMs
    if diffMs ≤ 0 then
      ⟨true, "Expirado", Urgency.high⟩
    else
      let minutes := diffMs / (1000 * 60)
      let hours := minutes / 60
      if hours > 0 then
        let remainingMinutes := minutes % 60
        ⟨false,
          if remainingMinutes > 0 then
            toString hours ++ "h " ++ toString remainingMinutes ++ "m"
          else toString hours ++ " hora" ++ (if hours > 1 then "s" else ""),
          if hours ≤ 1 then Urgency.high
          else if hours ≤ 3 then Urgency.medium else Urgency.low⟩
      else
        ⟨false, toString minutes ++ " minuto" ++ (if minutes > 1 then "s" else ""),
          Urgency.high⟩

/-- `Payment['status']`. -/
inductive PStatus
  | pending
  | approved
  | rejected
  | cancelled
  deriving DecidableEq

/-- The slice of a `Payment` the QR screen's logic reads. -/
structure Payment where
  id : String
  status : PStatus
  deriving DecidableEq

/-- The QR screen's component state relevant to polling: the `payment`
state variable and the `isCheckingStatus` guard flag. -/
structure ScreenState where
  payment : Option Payment
  isCheckingStatus : Bool
  deriving DecidableEq

/-- The synchronous prefix of `checkPaymentStatus`: the guard
`if (!payment || isCheckingStatus) return;` followed by
`setIsCheckingStatus(true)` and the dispatch of the network request.
Returns the new state and the number of network calls issued (0 or 1). -/
def checkPaymentStatusStart (s : ScreenState) : ScreenState × Nat :=
  match s.payment with
  | none => (s, 0)
  | some _ =>
    if s.isCheckingStatus then (s, 0)
    else (⟨s.payment, true⟩, 1)

/-- The continuation of `checkPaymentStatus` once the service call
settles: on success `setPayment(result.payment)`, on failure the error
is only logged and `payment` is left unchanged; `finally` resets
`isCheckingStatus` to `false`. -/
def checkPaymentStatusFinish (s : ScreenState) (svc : Except Unit Payment) :
    ScreenState :=
  match svc with
  | Except.ok p => ⟨some p, false⟩
  | Except.error _ => ⟨s.payment, false⟩

/-- `checkPaymentStatus` run to completion without interleaving: the
start phase followed, when the guard passed, by the finish phase. -/
def checkPaymentStatus (s : ScreenState) (svc : Except Unit Payment) :
    ScreenState × Nat :=
  let started := checkPaymentStatusStart s
  if started.2 = 0 then (started.1, 0)
  else (checkPaymentStatusFinish started.1 svc, started.2)

/-- `handleManualRefresh` just invokes `checkPaymentStatus`; for the
interleaving claims we model the triggering, i.e. its synchronous
prefix. -/
def handleManualRefresh (s : ScreenState) : ScreenState × Nat :=
  checkPaymentStatusStart s

/-- `handleCancelPayment`'s confirmed branch only calls
`navigation.goBack()`: it does not modify the payment state, call any
cancellation endpoint, or mark the payment cancelled. -/
def handleCancelPayment (s : ScreenState) : ScreenState :=
  s

/-- One firing of the `setInterval` callback:
`if (payment?.status === 'pending') checkPaymentStatus()`. -/
def pollTick (s : ScreenState) (svc : Except Unit Payment) : ScreenState × Nat :=
  match s.payment with
  | some p =>
    if p.status = PStatus.pending then checkPaymentStatus s svc else (s, 0)
  | none => (s, 0)

/-- The literal delay passed to `setInterval` in the polling effect. -/
def PAYMENT_POLL_INTERVAL_MS : Nat := 10000

/-- The delay before the `n`-th interval firing: `setInterval` uses the
same constant delay for every tick. -/
def pollTickDelay (_n : Nat) : Nat := PAYMENT_POLL_INTERVAL_MS

/-- Observable trace of a polling run: interval callbacks that fired,
`setPayment` updates from status checks, and terminal notifications
(`navigation.replace` to the success screen, or the rejection alert)
in order. -/
structure PollRun where
  ticks : Nat
  updates : Nat
  terminals : List PStatus
  deriving DecidableEq

/-- A polling run of the QR screen: `responses` is the gateway status
returned by each successive status check, `cur` the currently held
status.  A tick refreshes only while `cur` is `pending`; an `approved`
response triggers `navigation.replace`, which unmounts the screen and
(by the effect cleanup) clears the interval, so no later tick occurs;
`rejected`/`cancelled` raise the alert once and subsequent ticks fire
nothing. -/
def runPoller : List PStatus → PStatus → PollRun
  | [], _ => ⟨0, 0, []⟩
  | r :: rest, cur =>
    if cur = PStatus.pending then
      match r with
      | PStatus.approved => ⟨1, 1, [PStatus.approved]⟩
      | PStatus.rejected =>
        let t := runPoller rest PStatus.rejected
        ⟨t.ticks + 1, t.updates + 1, PStatus.rejected :: t.terminals⟩
      | PStatus.cancelled =>
        let t := runPoller rest PStatus.cancelled
        ⟨t.ticks + 1, t.updates + 1, PStatus.cancelled :: t.terminals⟩
      | PStatus.pending =>
        let t := runPoller rest PStatus.pending
        ⟨t.ticks + 1, t.updates + 1, t.terminals⟩
    else
      let t := runPoller rest cur
      ⟨t.ticks + 1, t.updates, t.terminals⟩

/-- `ERROR_CONFIG` from `constants/config.ts`. -/
structure ErrorConfig where
  RETRY_ATTEMPTS : Nat
  RETRY_DELAY : Nat
  deriving DecidableEq

/-- `ERROR_CONFIG = { RETRY_ATTEMPTS: 3, RETRY_DELAY: 1000 }`. -/
def ERROR_CONFIG : ErrorConfig := ⟨3, 1000⟩

/-- Outcome of one issued HTTP request: a response, or a transient
network failure (the interceptor's `NETWORK_ERROR` / `ECONNREFUSED` /
5xx branch). -/
inductive ReqOutcome
  | ok (p : Payment)
  | netfail
  deriving DecidableEq

/-- The response interceptor's retry loop: on a transient failure with
`_retryCount < ERROR_CONFIG.RETRY_ATTEMPTS`, wait
`ERROR_CONFIG.RETRY_DELAY * (retryCount + 1)` and re-issue; otherwise
reject, surfacing the error to the caller.  `outcomes` lists the result
of each successively issued request; the returned list collects the
delays waited before each retry. -/
def apiWithRetry : List ReqOutcome → Nat → List Nat × Except Unit Payment
  | [], _ => ([], Except.error ())
  | ReqOutcome.ok p :: _, _ => ([], Except.ok p)
  | ReqOutcome.netfail :: rest, retryCount =>
    if retryCount < ERROR_CONFIG.RETRY_ATTEMPTS then
      let delay := ERROR_CONFIG.RETRY_DELAY * (retryCount + 1)
      let next := apiWithRetry rest (retryCount + 1)
      (delay :: next.1, next.2)
    else ([], Except.error ())

/-! ## Helper lemmas -/

/-- A left fold accumulating `f x` equals the accumulator plus the sum of
the mapped list. -/
theorem foldl_add_map_sum {α : Type} (f : α → Rat) (l : List α) (a : Rat) :
    l.foldl (fun s x => s + f x) a = a + (l.map f).sum := by
  induction l generalizing a with
  | nil => simp
  | cons x xs ih => simp [ih]; ring

/-- `getTimeUntilExpiration` depends only on the difference of its two
timestamps. -/
theorem getTimeUntilExpiration_shift (now e : Int) :
    getTimeUntilExpiration now e = getTimeUntilExpiration 0 (e - now) := by
  unfold getTimeUntilExpiration
  norm_num

/-- `getPaymentTimeLeft` with a set expiry depends only on the difference
of the two timestamps. -/
theorem getPaymentTimeLeft_shift (now e : Int) :
    getPaymentTimeLeft (some e) now = getPaymentTimeLeft (some (e - now)) 0 := by
  unfold getPaymentTimeLeft
  norm_num

/-! ## Claims -/

/-- C2: for every item list and discount/tax percentages in `[0,100]`,
`calculateQuoteTotals` returns `subtotal = Σ unitPrice * quantity` and
`total = (subtotal - discountAmount) + taxAmount`, and two calls on
identical inputs return identical results. -/
theorem C2_totals_invariants (items : List QuoteItem) (d t : Rat)
    (hd0 : 0 ≤ d) (hd1 : d ≤ 100) (ht0 : 0 ≤ t) (ht1 : t ≤ 100) :
    (calculateQuoteTotals items d t).subtotal
        = (items.map (fun i => i.product.price * i.quantity)).sum
      ∧ (calculateQuoteTotals items d t).total
        = ((calculateQuoteTotals items d t).subtotal
            - (calculateQuoteTotals items d t).discountAmount)
          + (calculateQuoteTotals items d t).taxAmount
      ∧ calculateQuoteTotals items d t = calculateQuoteTotals items d t := by
  refine ⟨?_, rfl, rfl⟩
  simp [calculateQuoteTotals, foldl_add_map_sum]

/-- Witness for C2 at two items `(1000 × 2, 500 × 1)`, discount 10,
tax 21. -/
theorem C2_totals_invariants_witness :
    ((0 : Rat) ≤ 10 ∧ (10 : Rat) ≤ 100 ∧ (0 : Rat) ≤ 21 ∧ (21 : Rat) ≤ 100)
    ∧ (calculateQuoteTotals [⟨⟨1000⟩, 2⟩, ⟨⟨500⟩, 1⟩] 10 21).subtotal
        = (([⟨⟨1000⟩, 2⟩, ⟨⟨500⟩, 1⟩] : List QuoteItem).map
            (fun i => i.product.price * i.quantity)).sum :=
  ⟨⟨by norm_num, by norm_num, by norm_num, by norm_num⟩,
    (C2_totals_invariants [⟨⟨1000⟩, 2⟩, ⟨⟨500⟩, 1⟩] 10 21
      (by norm_num) (by norm_num) (by norm_num) (by norm_num)).1⟩

/-- C3 counterexample: on items `(1000 × 2, 500 × 1)`, discount 10%,
tax 21%, the code does not round half-up: `taxAmount` is `472.5`, not
`473`. -/
theorem C3_counterexample :
    (calculateQuoteTotals [⟨⟨1000⟩, 2⟩, ⟨⟨500⟩, 1⟩] 10 21).taxAmount ≠ 473 := by
  norm_num [calculateQuoteTotals]

/-- C3 amended: `calculateQuoteTotals` performs no rounding; on the same
input it returns `subtotal = 2500`, `discountAmount = 250`,
`taxAmount = 472.5` and `total = 2722.5`. -/
theorem C3_no_rounding_values :
    calculateQuoteTotals [⟨⟨1000⟩, 2⟩, ⟨⟨500⟩, 1⟩] 10 21
      = ⟨2500, 250, 945 / 2, 5445 / 2⟩ := by
  norm_num [calculateQuoteTotals]

/-- C4 counterexample: on an item with quantity `0` and negative unit
price, and out-of-range percentages, `calculateQuoteTotals` still
returns a result record instead of failing with a validation error. -/
theorem C4_counterexample :
    calculateQuoteTotals [⟨⟨-50⟩, 0⟩] 150 (-7) = ⟨0, 0, 0, 0⟩ := by
  norm_num [calculateQuoteTotals]

/-- C4 amended: `calculateQuoteTotals` performs no validation and no
clamping — the discount percentage is applied as given even outside
`[0,100]`; the separate `validateQuoteData` reports (without throwing)
`isValid = false`, naming the quantity field for a zero quantity and the
discount field for an out-of-range discount; it checks no unit price
(request items carry none). -/
theorem C4_no_validation_in_totals (items : List QuoteItem) (d t : Rat) :
    (calculateQuoteTotals items d t).discountAmount
        = (calculateQuoteTotals items d t).subtotal * d / 100
      ∧ (validateQuoteData
          ⟨⟨"Juan Perez", none, none⟩, [⟨"prod1", 0⟩], some 150, none, none⟩).isValid
        = false
      ∧ ("item0Quantity", "La cantidad debe ser mayor a 0")
          ∈ (validateQuoteData
            ⟨⟨"Juan Perez", none, none⟩, [⟨"prod1", 0⟩], some 150, none, none⟩).errors
      ∧ ("discount", "El descuento debe estar entre 0 y 100")
          ∈ (validateQuoteData
            ⟨⟨"Juan Perez", none, none⟩, [⟨"prod1", 0⟩], some 150, none, none⟩).errors := by
  exact ⟨rfl, by decide, by decide, by decide⟩

/-- C7: at `now = expiresAt` both time-left helpers report the expired
record (high urgency, the `"Expirado"` zero-time display); one
millisecond earlier both report `expired = false`. -/
theorem C7_expiration_boundary (nowMs expiresAtMs : Int) :
    (nowMs = expiresAtMs →
        getTimeUntilExpiration nowMs expiresAtMs = ⟨true, "Expirado", Urgency.high⟩
      ∧ getPaymentTimeLeft (some expiresAtMs) nowMs = ⟨true, "Expirado", Urgency.high⟩)
    ∧ (nowMs + 1 = expiresAtMs →
        (getTimeUntilExpiration nowMs expiresAtMs).expired = false
      ∧ (getPaymentTimeLeft (some expiresAtMs) nowMs).expired = false) := by
  constructor
  · intro h
    have h0 : expiresAtMs - nowMs = 0 := by omega
    rw [getTimeUntilExpiration_shift nowMs expiresAtMs,
      getPaymentTimeLeft_shift nowMs expiresAtMs, h0]
    exact ⟨by decide, by decide⟩
  · intro h
    have h1 : expiresAtMs - nowMs = 1 := by omega
    rw [getTimeUntilExpiration_shift nowMs expiresAtMs,
      getPaymentTimeLeft_shift nowMs expiresAtMs, h1]
    exact ⟨by decide, by decide⟩

/-- Witness for C7 at `now = expiresAt = 5` and at `now = 4`,
`expiresAt = 5`. -/
theorem C7_expiration_boundary_witness :
    ((5 : Int) = 5
      ∧ getTimeUntilExpiration 5 5 = ⟨true, "Expirado", Urgency.high⟩)
    ∧ ((4 : Int) + 1 = 5
      ∧ (getPaymentTimeLeft (some 5) 4).expired = false) :=
  ⟨⟨rfl, ((C7_expiration_boundary 5 5).1 rfl).1⟩,
    ⟨by decide, ((C7_expiration_boundary 4 5).2 (by decide)).2⟩⟩

/-- C10: at the exact expiry instant the boolean predicates (strict
`>`) say not expired while the time-left helpers say expired — the two
classifications disagree, for quotes and for payments. -/
theorem C10_expiry_predicates_disagree :
    isQuoteExpired 1000 1000 = false
      ∧ (getTimeUntilExpiration 1000 1000).expired = true
      ∧ isPaymentExpired (some 1000) 1000 = false
      ∧ (getPaymentTimeLeft (some 1000) 1000).expired = true := by
  decide

/-- C5: with a payment loaded and no check in flight, starting a status
check issues exactly one network call, and a manual refresh triggered
while that check is in flight is a no-op: it issues no second call and
leaves the state unchanged. -/
theorem C5_single_flight (s : ScreenState) (p : Payment)
    (h1 : s.payment = some p) (h2 : s.isCheckingStatus = false) :
    (checkPaymentStatusStart s).2 = 1
      ∧ handleManualRefresh (checkPaymentStatusStart s).1
        = ((checkPaymentStatusStart s).1, 0) := by
  obtain ⟨pay, flag⟩ := s
  simp only at h1 h2
  subst h1
  subst h2
  simp [checkPaymentStatusStart, handleManualRefresh]

/-- Witness for C5 on a pending payment with no check in flight. -/
theorem C5_single_flight_witness :
    ((⟨some ⟨"p1", PStatus.pending⟩, false⟩ : ScreenState).payment
        = some ⟨"p1", PStatus.pending⟩
      ∧ (⟨some ⟨"p1", PStatus.pending⟩, false⟩ : ScreenState).isCheckingStatus = false)
    ∧ ((checkPaymentStatusStart ⟨some ⟨"p1", PStatus.pending⟩, false⟩).2 = 1
      ∧ handleManualRefresh
          (checkPaymentStatusStart ⟨some ⟨"p1", PStatus.pending⟩, false⟩).1
        = ((checkPaymentStatusStart ⟨some ⟨"p1", PStatus.pending⟩, false⟩).1, 0)) :=
  ⟨⟨rfl, rfl⟩, C5_single_flight ⟨some ⟨"p1", PStatus.pending⟩, false⟩
    ⟨"p1", PStatus.pending⟩ rfl rfl⟩

/-- C1 counterexample: a status check on a locally `cancelled` payment
whose gateway response reports `approved` overwrites the local status
with `approved`; and the cancel handler does not change the payment
state at all (it only navigates back), so terminal states are not
sticky. -/
theorem C1_counterexample :
    (checkPaymentStatus ⟨some ⟨"p1", PStatus.cancelled⟩, false⟩
        (Except.ok ⟨"p1", PStatus.approved⟩)).1.payment
      = some ⟨"p1", PStatus.approved⟩
    ∧ handleCancelPayment ⟨some ⟨"p1", PStatus.pending⟩, false⟩
      = ⟨some ⟨"p1", PStatus.pending⟩, false⟩ := by
  decide

/-- C1 amended: timer ticks refresh only `pending` payments, so the
timer never moves a payment out of a terminal status; but
`handleCancelPayment` leaves the payment unchanged (no local cancel
mark), and a manual status check is not guarded by the local status:
it adopts whatever payment the gateway returns, so a refresh can move a
payment out of `approved`, `rejected` or `cancelled`. -/
theorem C1_amended_refresh_behaviour (p q : Payment) (b : Bool)
    (svc : Except Unit Payment) (hterm : p.status ≠ PStatus.pending) :
    pollTick ⟨some p, b⟩ svc = (⟨some p, b⟩, 0)
      ∧ handleCancelPayment ⟨some p, b⟩ = ⟨some p, b⟩
      ∧ (checkPaymentStatus ⟨some p, false⟩ (Except.ok q)).1.payment = some q := by
  refine ⟨?_, rfl, ?_⟩
  · simp [pollTick, hterm]
  · simp [checkPaymentStatus, checkPaymentStatusStart, checkPaymentStatusFinish]

/-- Witness for C1's amended statement on a cancelled payment refreshed
with a gateway `approved` response. -/
theorem C1_amended_refresh_behaviour_witness :
    (⟨"p1", PStatus.cancelled⟩ : Payment).status ≠ PStatus.pending
    ∧ (checkPaymentStatus ⟨some ⟨"p1", PStatus.cancelled⟩, false⟩
        (Except.ok ⟨"p1", PStatus.approved⟩)).1.payment
      = some ⟨"p1", PStatus.approved⟩ :=
  ⟨by decide,
    (C1_amended_refresh_behaviour ⟨"p1", PStatus.cancelled⟩
      ⟨"p1", PStatus.approved⟩ false (Except.ok ⟨"p1", PStatus.approved⟩)
      (by decide)).2.2⟩

/-- C6: in a run whose gateway responses are `pending`, `pending`,
`approved`, the poller fires three update notifications, exactly one
terminal notification (with status `approved`), and — whatever further
responses would have followed — no fourth tick occurs. -/
theorem C6_terminal_stops_polling (rest : List PStatus) :
    runPoller ([PStatus.pending, PStatus.pending, PStatus.approved] ++ rest)
        PStatus.pending
      = ⟨3, 3, [PStatus.approved]⟩ := by
  rfl

/-- C9: the poll delay is the constant 10000 ms for every tick (no
backoff), and a tick that issues a refresh call can only do so when the
stored payment's status is `pending`. -/
theorem C9_fixed_interval (n : Nat) (s : ScreenState)
    (svc : Except Unit Payment) (h : (pollTick s svc).2 ≠ 0) :
    pollTickDelay n = 10000
      ∧ pollTickDelay (n + 1) = pollTickDelay n
      ∧ ∃ p, s.payment = some p ∧ p.status = PStatus.pending := by
  refine ⟨rfl, rfl, ?_⟩
  obtain ⟨pay, flag⟩ := s
  cases pay with
  | none => simp [pollTick] at h
  | some p =>
    refine ⟨p, rfl, ?_⟩
    by_contra hp
    simp [pollTick, hp] at h

/-- Witness for C9 on a pending payment whose tick fires a call. -/
theorem C9_fixed_interval_witness :
    (pollTick ⟨some ⟨"p1", PStatus.pending⟩, false⟩
        (Except.ok ⟨"p1", PStatus.pending⟩)).2 ≠ 0
    ∧ (pollTickDelay 0 = 10000
      ∧ pollTickDelay (0 + 1) = pollTickDelay 0
      ∧ ∃ p, (⟨some ⟨"p1", PStatus.pending⟩, false⟩ : ScreenState).payment = some p
          ∧ p.status = PStatus.pending) :=
  ⟨by decide,
    C9_fixed_interval 0 ⟨some ⟨"p1", PStatus.pending⟩, false⟩
      (Except.ok ⟨"p1", PStatus.pending⟩) (by decide)⟩

/-- C8: a request whose first four outcomes are transient network
failures is retried three times with delays 1000, 2000, 3000 ms and
then surfaces an error; the status check swallows that error, leaving
the payment (and the rest of the screen state) unchanged, and the next
poll tick on the still-pending payment fires its call as usual. -/
theorem C8_retry_policy (rest : List ReqOutcome) (p : Payment)
    (svc : Except Unit Payment) (hp : p.status = PStatus.pending) :
    apiWithRetry (ReqOutcome.netfail :: ReqOutcome.netfail :: ReqOutcome.netfail
          :: ReqOutcome.netfail :: rest) 0
        = ([1000, 2000, 3000], Except.error ())
      ∧ (checkPaymentStatus ⟨some p, false⟩ (Except.error ())).1 = ⟨some p, false⟩
      ∧ (pollTick ⟨some p, false⟩ svc).2 = 1 := by
  refine ⟨rfl, ?_, ?_⟩
  · simp [checkPaymentStatus, checkPaymentStatusStart, checkPaymentStatusFinish]
  · simp [pollTick, hp, checkPaymentStatus, checkPaymentStatusStart]

/-- Witness for C8 on four failing outcomes and a pending payment. -/
theorem C8_retry_policy_witness :
    (⟨"p1", PStatus.pending⟩ : Payment).status = PStatus.pending
    ∧ apiWithRetry [ReqOutcome.netfail, ReqOutcome.netfail, ReqOutcome.netfail,
          ReqOutcome.netfail] 0
        = ([1000, 2000, 3000], Except.error ()) :=
  ⟨rfl, (C8_retry_policy [] ⟨"p1", PStatus.pending⟩ (Except.error ()) rfl).1⟩

end BudgetGen
